import Mathlib

/-!
Verification development for the Execution Session Manager of the Coddie
coding-challenge client (`ProblemDetailPage` and the API layer).

The TypeScript source is embedded shallowly: the React component's state and
refs become one record (`SessionState`), each event handler becomes a pure
function from state to state paired with an ordered trace of externally
visible effects (`Effect`), and the outcome of every awaited asynchronous
call (save success, attempt/boilerplate fetch, connection opening within the
bounded wait, send success) is an explicit oracle parameter.  The handlers of
the source are `async` but contain no interleaving-relevant suspension other
than those awaited calls, so each handler is modelled as one atomic step
whose internal ordering is the trace order.
-/

namespace Coddie

/-- JavaScript string truthiness: only the empty string is falsy. -/
def jsTruthy (s : String) : Bool := s ≠ ""

/-- Truthiness of an optional string (`undefined`/`null`/`""` are falsy). -/
def jsTruthyOpt (o : Option String) : Bool :=
  match o with
  | some s => jsTruthy s
  | none => false

/-- Whether `p` is an initial segment of `l` (structural recursion, so that
the kernel can evaluate it on concrete strings). -/
def charsLead : List Char → List Char → Bool
  | [], _ => true
  | _ :: _, [] => false
  | a :: as, b :: bs => a == b && charsLead as bs

/-- JS `String.prototype.startsWith`, modelled structurally (the core
library's version uses well-founded recursion the kernel cannot evaluate). -/
def strStartsWith (s p : String) : Bool := charsLead p.data s.data

/-- JS `String.prototype.endsWith`, modelled structurally. -/
def strEndsWith (s p : String) : Bool := charsLead p.data.reverse s.data.reverse

/-- JS `String.prototype.trim`, modelled structurally. -/
def strTrim (s : String) : String :=
  String.mk (((s.data.dropWhile Char.isWhitespace).reverse.dropWhile
    Char.isWhitespace).reverse)

/-- Remove the final `n` characters (the source's `url.replace(/\/$/, "")`
becomes a one-character `strDropRight` guarded by `strEndsWith`). -/
def strDropRight (s : String) (n : Nat) : String :=
  String.mk (s.data.take (s.data.length - n))

/-- A programming language record (`ProgrammingLanguage` in the source).
`boilerplate` is optional in the API type; the source reads it as
`lang.boilerplate || ""`. -/
structure Language where
  id : Nat
  slug : String
  name : String
  boilerplate : Option String
deriving DecidableEq, Repr

/-- A problem record; `language` is the locked language of a single-language
problem and `none` for multi-language problems. -/
structure Problem where
  slug : String
  language : Option Language
deriving DecidableEq, Repr

/-- One execution phase of a result (`Phase` in the source). -/
structure Phase where
  stdout : String
  stderr : String
  code : Int
  signal : Option String
  output : String
deriving DecidableEq, Repr

/-- The `ExecutionResult` shape stored in the `output` state. -/
structure ExecutionResult where
  language : String
  version : String
  run : Option Phase
  compile : Option Phase
deriving DecidableEq, Repr

/-- WebSocket ready states, named after the DOM constants. -/
inductive ReadyState where
  | CONNECTING
  | OPEN
  | CLOSING
  | CLOSED
deriving DecidableEq, Repr

/-- One transport connection object.  `id` distinguishes distinct
`new WebSocket(...)` objects created over the session's lifetime. -/
structure Conn where
  id : Nat
  url : String
  readyState : ReadyState
deriving DecidableEq, Repr

/-- Ambient inputs of the component that no handler mutates: the route
parameter `slug`, the auth flag, the stored access token and the computed
`WS_URL`. -/
structure Env where
  isAuthenticated : Bool
  slug : Option String
  token : Option String
  wsUrl : String
deriving DecidableEq, Repr

/-- A pending debounce timer.  The source arms it with
`setTimeout(() => { saveAttempt(newCode); }, 2000)`: the callback closes
over `newCode` and over the arming render's `saveAttempt`, which in turn
captures that render's `problem` and `selectedLanguage` (its `slug` and
`isAuthenticated` are also captured, but those are ambient in `Env` and
constant over a Session's lifetime, so they need no slot).  A save fired by
this timer therefore uses these captured values, not the values at fire
time. -/
structure PendingSave where
  deadline : Nat
  code : String
  problem : Option Problem
  selectedLanguage : Option Language
deriving DecidableEq, Repr

/-- The component's state and refs.  `saveTimeout` is the pending debounce
timer with the values its callback closed over when armed.  `liveSockets`
records the ids of every WebSocket the session has constructed and that has
not been closed; the source never calls `close()` itself, so a socket leaves
this list only through a close event. -/
structure SessionState where
  problem : Option Problem
  languages : List Language
  selectedLanguage : Option Language
  code : String
  output : Option ExecutionResult
  executing : Bool
  submitting : Bool
  saving : Bool
  savedAt : Option Nat
  submissionStatus : Option String
  submissionId : Option Nat
  wsConnection : Option Conn
  isConnected : Bool
  saveTimeout : Option PendingSave
  codeInitialized : Bool
  currentCodeRef : String
  currentProblemRef : Option Problem
  liveSockets : List Nat
  nextSocketId : Nat
deriving DecidableEq, Repr

/-- Externally visible effects, in the order the handler performs them. -/
inductive Effect where
  | attemptUpdate (slug : String) (code : String) (language : Option Nat)
  | attemptGet (slug : String) (languageId : Nat)
  | getBoilerplate (slug : String) (langSlug : String)
  | wsCreate (connId : Nat) (url : String)
  | wsSend (connId : Nat) (language : String) (version : String)
      (code : String) (problemSlug : String) (mode : String)
  | alertBox (msg : String)
deriving DecidableEq, Repr

/-- Outcome oracle for an awaited fallible request. -/
inductive FetchResult (α : Type) where
  | ok (a : α)
  | err
deriving DecidableEq, Repr

/-- `getWebSocketUrl` from the source: environment URL with validation and a
hardcoded fallback, normalised to end with a slash. -/
def getWebSocketUrl (envUrl : Option String) : String :=
  let defaultUrl := "ws://localhost:8080/ws"
  let url := match envUrl with
    | some u => if jsTruthy u then u else defaultUrl
    | none => defaultUrl
  if ¬ jsTruthy url ∨ strTrim url = "" ∨
      (¬ strStartsWith url "ws://" ∧ ¬ strStartsWith url "wss://") then
    defaultUrl
  else if strEndsWith url "/" then url else url ++ "/"

/-- The connection target address built inside `initializeWebSocket`: the
base URL with one trailing slash removed, then `/execute/?token=...` when a
token is stored (percent-encoding of the token is not modelled; no claim
depends on the token's spelling). -/
def mkWsTargetUrl (wsUrl : String) (token : Option String) : String :=
  let cleanUrl := if strEndsWith wsUrl "/" then strDropRight wsUrl 1 else wsUrl
  match token with
  | some t => if jsTruthy t then cleanUrl ++ "/execute/?token=" ++ t else cleanUrl
  | none => cleanUrl

/-- The synthesized local error result used when the connection cannot reach
`OPEN` within the bounded wait. -/
def connectionFailureResult (langSlug : String) : ExecutionResult :=
  { language := langSlug
    version := "*"
    run := some
      { stdout := ""
        stderr := "Failed to connect to execution service. Please try again."
        code := 1
        signal := none
        output := "" }
    compile := none }

/-- The synthesized local error result used when `ws.send` throws. -/
def sendFailureResult (langSlug : String) (msg : String) : ExecutionResult :=
  { language := langSlug
    version := "*"
    run := some
      { stdout := ""
        stderr := msg
        code := 1
        signal := none
        output := "" }
    compile := none }

/-- The body of `saveAttempt(codeToSave, silent)` as instantiated by one
render: `armedProblem`/`armedLang` are the `problem` and `selectedLanguage`
values that render's closure captured (the captured `isAuthenticated` and
`slug` are ambient in `Env` and constant over a Session's lifetime).  Bails
out before any request unless authenticated with a problem, slug and
selected language; on success records `savedAt`; a non-silent save toggles
the saving indicator (net effect: `saving = false` afterwards) — the state
setters are stable, so state updates apply to the current state; a failed
request is only logged. -/
def saveAttemptWith (env : Env) (s : SessionState) (now : Nat)
    (armedProblem : Option Problem) (armedLang : Option Language)
    (codeToSave : String) (silent : Bool) (saveOk : Bool) :
    SessionState × List Effect :=
  match armedProblem, env.slug, armedLang with
  | some _, some sl, some lang =>
    if env.isAuthenticated ∧ jsTruthy sl then
      let s1 := if saveOk then { s with savedAt := some now } else s
      let s2 := if silent then s1 else { s1 with saving := false }
      (s2, [Effect.attemptUpdate sl codeToSave (some lang.id)])
    else (s, [])
  | _, _, _ => (s, [])

/-- `saveAttempt(codeToSave, silent)` of the current render: its closure
reads the current `problem` and `selectedLanguage`.  This is the instance
the handlers invoke synchronously. -/
def saveAttempt (env : Env) (s : SessionState) (now : Nat) (codeToSave : String)
    (silent : Bool) (saveOk : Bool) : SessionState × List Effect :=
  saveAttemptWith env s now s.problem s.selectedLanguage codeToSave silent
    saveOk

/-- `handleCodeChange(value)` from the source: records the buffer and ref,
clears any pending debounce timer, and (when authenticated and initialized)
arms a fresh 2000-unit timer capturing the new code. -/
def handleCodeChange (env : Env) (s : SessionState) (now : Nat)
    (value : Option String) : SessionState :=
  let newCode := value.getD ""
  let s1 := { s with code := newCode, currentCodeRef := newCode,
                     saveTimeout := none }
  if env.isAuthenticated ∧ s.codeInitialized then
    { s1 with
        saveTimeout := some ⟨now + 2000, newCode, s.problem,
                             s.selectedLanguage⟩ }
  else s1

/-- Whether the pending debounce timer (if any) is due at time `t`. -/
def timerDue (s : SessionState) (t : Nat) : Bool :=
  match s.saveTimeout with
  | some pend => pend.deadline ≤ t
  | none => false

/-- Firing of the debounce timer: the callback runs the arming render's
`saveAttempt(newCode)` (non-silent — `silent` defaults to `false` in the
source) with the code, `problem` and `selectedLanguage` that render's
closure captured when the timer was armed — not the values at fire time;
the timer is no longer pending. -/
def fireTimer (env : Env) (s : SessionState) (now : Nat) (saveOk : Bool) :
    SessionState × List Effect :=
  match s.saveTimeout with
  | none => (s, [])
  | some pend =>
    saveAttemptWith env { s with saveTimeout := none } now pend.problem
      pend.selectedLanguage pend.code false saveOk

/-- One editor edit at absolute time `t`: if the armed debounce timer is due
by `t` it fires first (the event loop runs the timeout callback before the
later input event), then `handleCodeChange` runs. -/
def stepEdit (env : Env) (saveOk : Bool) (s : SessionState) (e : Nat × String) :
    SessionState × List Effect :=
  let (s1, es) := if timerDue s e.1 then fireTimer env s e.1 saveOk else (s, [])
  (handleCodeChange env s1 e.1 (some e.2), es)

/-- Run a time-stamped edit script through the component. -/
def runEdits (env : Env) (saveOk : Bool) (s : SessionState) :
    List (Nat × String) → SessionState × List Effect
  | [] => (s, [])
  | e :: rest =>
    let (s1, es1) := stepEdit env saveOk s e
    let (s2, es2) := runEdits env saveOk s1 rest
    (s2, es1 ++ es2)

/-- Run an edit script, then let time advance to `flushTime` so that a timer
still pending after the last edit fires (when due). -/
def runEditsThenFlush (env : Env) (saveOk : Bool) (s : SessionState)
    (edits : List (Nat × String)) (flushTime : Nat) : SessionState × List Effect :=
  let (s1, es1) := runEdits env saveOk s edits
  let (s2, es2) := if timerDue s1 flushTime then fireTimer env s1 flushTime saveOk
                   else (s1, [])
  (s2, es1 ++ es2)

/-- `initializeWebSocket` from the source.  Returns the connection handed to
the caller (or `none` on a precondition failure) together with the updated
state and effect trace.  It reuses the stored connection exactly when its
ready state is `OPEN`; otherwise — given authentication, a loaded problem and
a well-formed target URL — it constructs a fresh `WebSocket` in `CONNECTING`
state and stores it, without closing any previous socket. -/
def initializeWebSocket (env : Env) (s : SessionState) :
    Option Conn × SessionState × List Effect :=
  let openFresh : Option Conn × SessionState × List Effect :=
    if ¬ env.isAuthenticated ∨ s.problem.isNone then (none, s, [])
    else if ¬ jsTruthy env.wsUrl ∨ strTrim env.wsUrl = "" then (none, s, [])
    else
      let wsUrl := mkWsTargetUrl env.wsUrl env.token
      if ¬ jsTruthy wsUrl ∨ wsUrl = "ws:///" ∨ wsUrl = "wss:///" then (none, s, [])
      else
        let c : Conn := { id := s.nextSocketId, url := wsUrl,
                          readyState := ReadyState.CONNECTING }
        (some c,
         { s with wsConnection := some c,
                  nextSocketId := s.nextSocketId + 1,
                  liveSockets := s.liveSockets ++ [c.id] },
         [Effect.wsCreate c.id wsUrl])
  match s.wsConnection with
  | some c => if c.readyState = ReadyState.OPEN then (some c, s, []) else openFresh
  | none => openFresh

/-- Shared tail of `handleRunCode`/`handleSubmitCode` after the immediate
save: set the mode flag, clear prior output/status, ensure a connection,
wait for readiness (the `opensWithinWait` oracle decides whether the handed
connection reaches `OPEN` within the bounded 500-unit wait), then send the
execution request; on connection or send failure synthesize a local error
result and clear the mode flag.  `setMode b` sets `executing` (run) or
`submitting` (submit). -/
def dispatchRequest (env : Env) (s : SessionState) (lang : Language)
    (prob : Problem) (mode : String)
    (setMode : SessionState → Bool → SessionState)
    (opensWithinWait : Bool) (sendOk : Bool) : SessionState × List Effect :=
  let s := setMode { s with output := none, submissionStatus := none,
                            submissionId := none } true
  let (wsOpt, s, esConn) := initializeWebSocket env s
  let sendPart : Conn → SessionState → SessionState × List Effect := fun c s =>
    if sendOk then
      (s, esConn ++ [Effect.wsSend c.id lang.slug "*" s.code prob.slug mode])
    else
      (setMode { s with
          output := some (sendFailureResult lang.slug
            (if mode = "submit" then "Failed to send submission request"
             else "Failed to send execution request")) } false,
       esConn)
  match wsOpt with
  | none =>
    -- `ws` is null: after the 500-unit wait `ws?.readyState` is undefined,
    -- so the connectivity-failure branch is taken.
    (setMode { s with output := some (connectionFailureResult lang.slug) } false,
     esConn)
  | some c =>
    if c.readyState = ReadyState.OPEN then sendPart c s
    else if opensWithinWait then
      -- the socket's onopen ran during the wait
      let c' := { c with readyState := ReadyState.OPEN }
      sendPart c' { s with wsConnection := some c', isConnected := true }
    else
      (setMode { s with output := some (connectionFailureResult lang.slug) } false,
       esConn)

/-- `handleRunCode` from the source: precondition check, cancel the pending
debounce timer, immediate silent save (when authenticated and initialized),
then dispatch with mode `"run"`. -/
def handleRunCode (env : Env) (s : SessionState) (now : Nat)
    (saveOk opensWithinWait sendOk : Bool) : SessionState × List Effect :=
  match s.selectedLanguage, s.problem with
  | some lang, some prob =>
    let s := { s with saveTimeout := none }
    let (s, esSave) :=
      if env.isAuthenticated ∧ s.codeInitialized then
        saveAttempt env s now s.code true saveOk
      else (s, [])
    let (s', es') := dispatchRequest env s lang prob "run"
        (fun st b => { st with executing := b }) opensWithinWait sendOk
    (s', esSave ++ es')
  | _, _ => (s, [])

/-- `handleSubmitCode` from the source: precondition check, authentication
check with a user-facing alert, cancel the pending debounce timer, immediate
silent save (when initialized), then dispatch with mode `"submit"`. -/
def handleSubmitCode (env : Env) (s : SessionState) (now : Nat)
    (saveOk opensWithinWait sendOk : Bool) : SessionState × List Effect :=
  match s.selectedLanguage, s.problem with
  | some lang, some prob =>
    if ¬ env.isAuthenticated then
      (s, [Effect.alertBox "Please log in to submit your code"])
    else
      let s := { s with saveTimeout := none }
      let (s, esSave) :=
        if s.codeInitialized then saveAttempt env s now s.code true saveOk
        else (s, [])
      let (s', es') := dispatchRequest env s lang prob "submit"
          (fun st b => { st with submitting := b }) opensWithinWait sendOk
      (s', esSave ++ es')
  | _, _ => (s, [])

/-- The Run button's click event.  The button carries
`disabled={executing || submitting || !selectedLanguage}`, so a click while
disabled fires nothing. -/
def runClick (env : Env) (s : SessionState) (now : Nat)
    (saveOk opensWithinWait sendOk : Bool) : SessionState × List Effect :=
  if s.executing ∨ s.submitting ∨ s.selectedLanguage.isNone then (s, [])
  else handleRunCode env s now saveOk opensWithinWait sendOk

/-- The Submit button's click event.  The button carries
`disabled={executing || submitting || !selectedLanguage || !isAuthenticated}`. -/
def submitClick (env : Env) (s : SessionState) (now : Nat)
    (saveOk opensWithinWait sendOk : Bool) : SessionState × List Effect :=
  if s.executing ∨ s.submitting ∨ s.selectedLanguage.isNone ∨
      ¬ env.isAuthenticated then (s, [])
  else handleSubmitCode env s now saveOk opensWithinWait sendOk

/-- `handleLanguageChange(languageId)` from the source.  Oracles:
`attemptRes` is the saved-attempt fetch for the new language (its payload is
the possibly-null `code` field), `boilerTry` the boilerplate fetch made
inside the `try` block, `boilerCatch` the boilerplate fetch made inside the
`catch` block.  Step 1 saves the outgoing language's code directly via the
attempt endpoint (a failure is only logged), step 2 updates the selection,
step 3 resolves the new buffer. -/
def handleLanguageChange (env : Env) (s : SessionState) (languageId : Nat)
    (attemptRes : FetchResult (Option String))
    (boilerTry boilerCatch : FetchResult String) : SessionState × List Effect :=
  match s.languages.find? (fun l => l.id == languageId), env.slug with
  | some newLang, some sl =>
    if ¬ jsTruthy sl then (s, [])
    else
      let es1 : List Effect :=
        match s.selectedLanguage with
        | some oldLang =>
          if env.isAuthenticated ∧ jsTruthy (strTrim s.code) then
            [Effect.attemptUpdate sl s.code (some oldLang.id)]
          else []
        | none => []
      let s1 := { s with selectedLanguage := some newLang }
      let setBuf : String → SessionState := fun c =>
        { s1 with code := c, currentCodeRef := c }
      let fallbackCatch : SessionState × List Effect :=
        match boilerCatch with
        | .ok b => (setBuf b, [Effect.getBoilerplate sl newLang.slug])
        | .err => (setBuf (newLang.boilerplate.getD ""),
                   [Effect.getBoilerplate sl newLang.slug])
      let (s2, es2) :=
        if env.isAuthenticated then
          match attemptRes with
          | .ok savedCode =>
            if jsTruthyOpt savedCode ∧ jsTruthy (strTrim (savedCode.getD "")) then
              (setBuf (savedCode.getD ""), [Effect.attemptGet sl newLang.id])
            else
              (match boilerTry with
               | .ok b => (setBuf b,
                           [Effect.attemptGet sl newLang.id,
                            Effect.getBoilerplate sl newLang.slug])
               | .err =>
                 let (s3, es3) := fallbackCatch
                 (s3, [Effect.attemptGet sl newLang.id,
                       Effect.getBoilerplate sl newLang.slug] ++ es3))
          | .err =>
            let (s3, es3) := fallbackCatch
            (s3, Effect.attemptGet sl newLang.id :: es3)
        else
          match boilerTry with
          | .ok b => (setBuf b, [Effect.getBoilerplate sl newLang.slug])
          | .err => (setBuf (newLang.boilerplate.getD ""),
                     [Effect.getBoilerplate sl newLang.slug])
      (s2, es1 ++ es2)
  | _, _ => (s, [])

/-- The `language?.id || undefined` expression of the unmount cleanup: the
locked language's id when the problem has one and the id is truthy. -/
def jsLangIdOfProblem (p : Problem) : Option Nat :=
  match p.language with
  | some l => if l.id = 0 then none else some l.id
  | none => none

/-- The `useEffect` cleanup run on unmount: clears the pending debounce
timer, then — exactly when authenticated, with initialized non-empty content
(read through the freshness refs) and a slug and loaded problem — issues one
fire-and-forget persistence call carrying the problem's locked language id
(`language?.id || undefined`); its failure is only logged. -/
def unmountCleanup (env : Env) (s : SessionState) : SessionState × List Effect :=
  let s1 := { s with saveTimeout := none }
  let codeToSave := s.currentCodeRef
  match env.slug, s.currentProblemRef with
  | some sl, some p =>
    if env.isAuthenticated ∧ s.codeInitialized ∧ jsTruthy codeToSave ∧
        jsTruthy sl then
      (s1, [Effect.attemptUpdate sl codeToSave (jsLangIdOfProblem p)])
    else (s1, [])
  | _, _ => (s1, [])

/-- An inbound execution-channel message. -/
structure WsIncoming where
  error : Option String
  result : Option (Option Phase × Option Phase)
  mode : Option String
  status : Option String
  submission_id : Option Nat
deriving DecidableEq, Repr

/-- `problem?.language?.slug || ""` used when labelling inbound results. -/
def problemLangSlug (s : SessionState) : String :=
  match s.problem with
  | some p => match p.language with
    | some l => l.slug
    | none => ""
  | none => ""

/-- `handleWebSocketMessage` from the source: an `{error}` message stores a
synthesized error result and clears both mode flags; a `{result}` message
stores it (recording submission status/id when `mode === "submit"`); in
every case both mode flags end cleared. -/
def handleWebSocketMessage (s : SessionState) (m : WsIncoming) : SessionState :=
  if jsTruthyOpt m.error then
    { s with
      output := some
        { language := problemLangSlug s
          version := "*"
          run := some
            { stdout := ""
              stderr := m.error.getD ""
              code := 1
              signal := none
              output := "" }
          compile := none }
      executing := false
      submitting := false }
  else
    let s1 :=
      match m.result with
      | some (r, c) =>
        let s2 := { s with
          output := some { language := problemLangSlug s, version := "*",
                           run := r, compile := c } }
        if m.mode = some "submit" then
          { s2 with
            submissionStatus :=
              (match m.status with
               | some st => if jsTruthy st then some st else none
               | none => none)
            submissionId :=
              (match m.submission_id with
               | some i => if i = 0 then none else some i
               | none => none) }
        else s2
      | none => s
    { s1 with executing := false, submitting := false }

/-- The context of a failed API response relevant to the axios response
interceptor: the HTTP status (absent on a network failure) and the
`_retry` marker on the original request config. -/
structure ApiErrorCtx where
  status : Option Nat
  retryFlag : Bool
deriving DecidableEq, Repr

/-- Possible outcomes of the axios response interceptor on an error. -/
inductive InterceptorOutcome where
  | retryOriginal (newAccessToken : String)
  | rejectAfterFailedRefresh
  | rejectError
deriving DecidableEq, Repr

/-- The response interceptor of `api.ts`: on a 401 whose request is not yet
marked `_retry`, with a stored refresh token, it refreshes the access token
and re-issues the original request (`retryOriginal`); a failed refresh
clears the tokens, redirects to login and rejects; every other error is
rejected unchanged. -/
def responseInterceptor (err : ApiErrorCtx) (refreshToken : Option String)
    (refreshResult : FetchResult String) : InterceptorOutcome :=
  if err.status = some 401 ∧ err.retryFlag = false then
    match refreshToken with
    | some rt =>
      if jsTruthy rt then
        match refreshResult with
        | .ok access => .retryOriginal access
        | .err => .rejectAfterFailedRefresh
      else .rejectError
    | none => .rejectError
  else .rejectError

/-! ### Concrete fixtures used by witnesses and counterexamples -/

def langPy : Language :=
  { id := 1, slug := "python", name := "Python", boilerplate := some "pass" }

def langJs : Language :=
  { id := 2, slug := "node", name := "Node", boilerplate := some "// start" }

def prob0 : Problem := { slug := "two-sum", language := none }

def probLocked : Problem := { slug := "two-sum", language := some langPy }

def env0 : Env :=
  { isAuthenticated := true, slug := some "two-sum", token := some "tok",
    wsUrl := getWebSocketUrl none }

def baseState : SessionState :=
  { problem := some prob0
    languages := [langPy, langJs]
    selectedLanguage := some langPy
    code := "print(1)"
    output := none
    executing := false
    submitting := false
    saving := false
    savedAt := none
    submissionStatus := none
    submissionId := none
    wsConnection := none
    isConnected := false
    saveTimeout := none
    codeInitialized := true
    currentCodeRef := "print(1)"
    currentProblemRef := some prob0
    liveSockets := []
    nextSocketId := 0 }

/-- A session holding a pending debounce timer armed with code `"X"` while
the base problem and Python were current (the closure values the arming
render captured). -/
def statePendingDebounce : SessionState :=
  { baseState with code := "X", currentCodeRef := "X",
                   saveTimeout := some
                     ⟨2000, "X", some prob0, some langPy⟩ }

/-- The URL well-formedness guards of `initializeWebSocket`, spelled as the
negations of its two bail-out conditions. -/
def wsUrlOk (env : Env) : Prop :=
  jsTruthy env.wsUrl = true ∧ strTrim env.wsUrl ≠ "" ∧
  jsTruthy (mkWsTargetUrl env.wsUrl env.token) = true ∧
  mkWsTargetUrl env.wsUrl env.token ≠ "ws:///" ∧
  mkWsTargetUrl env.wsUrl env.token ≠ "wss:///"

/-- The socket object `initializeWebSocket` constructs when it cannot reuse
the stored connection. -/
def freshConn (env : Env) (s : SessionState) : Conn :=
  { id := s.nextSocketId, url := mkWsTargetUrl env.wsUrl env.token,
    readyState := ReadyState.CONNECTING }

/-- Whether an effect is a send over the execution channel. -/
def isSendEffect : Effect → Bool
  | Effect.wsSend _ _ _ _ _ _ => true
  | _ => false

/-- A time-stamped edit script in which every edit (after the first) occurs
strictly within the 2000-unit debounce window of its predecessor, with
nondecreasing times. -/
def chainOk : List (Nat × String) → Prop
  | [] => True
  | [_] => True
  | (t1, _) :: (t2, c2) :: r => t1 ≤ t2 ∧ t2 < t1 + 2000 ∧ chainOk ((t2, c2) :: r)

/-- The last edit of a script, with a default head. -/
def lastEdit (d : Nat × String) : List (Nat × String) → Nat × String
  | [] => d
  | e :: r => lastEdit e r

/-- A connection fixture already in the `OPEN` state. -/
def connO : Conn := { id := 3, url := "u", readyState := ReadyState.OPEN }

/-- The base session holding an open connection. -/
def stateOpenConn : SessionState :=
  { baseState with wsConnection := some connO, liveSockets := [3],
                   nextSocketId := 4 }

/-! ### Claims -/

/-- C1: at most one Execution Request is outstanding per Session — a submit
event while Running (executing) is a no-op that sends nothing and changes no
state, a run event while Submitting likewise, and the arrival of any
execution-channel message returns both mode flags to idle. -/
theorem submitWhileRunning_noop (env : Env) (s : SessionState) (now : Nat)
    (saveOk opens sendOk saveOk2 opens2 sendOk2 : Bool) :
    (s.executing = true →
      submitClick env s now saveOk opens sendOk = (s, [])) ∧
    (s.submitting = true →
      runClick env s now saveOk2 opens2 sendOk2 = (s, [])) ∧
    (∀ m, (handleWebSocketMessage s m).executing = false ∧
          (handleWebSocketMessage s m).submitting = false) := by
  refine ⟨?_, ?_, ?_⟩
  · intro h; simp [submitClick, h]
  · intro h; simp [runClick, h]
  · intro m
    unfold handleWebSocketMessage
    split <;> simp

/-- Witness for C1 at a concrete session: a submit click while executing and
a run click while submitting both leave the session untouched. -/
theorem submitWhileRunning_noop_witness :
    submitClick env0 { baseState with executing := true } 0 true true true
      = ({ baseState with executing := true }, []) ∧
    runClick env0 { baseState with submitting := true } 0 true true true
      = ({ baseState with submitting := true }, []) :=
  ⟨(submitWhileRunning_noop env0 { baseState with executing := true } 0
      true true true true true true).1 rfl,
   (submitWhileRunning_noop env0 { baseState with submitting := true } 0
      true true true true true true).2.1 rfl⟩

/-- C2 (evidence of the code bug): the language-switch handler issues its
immediate save of the outgoing code `"X"` while leaving the pending debounce
timer armed — and that timer then fires a second save of the stale code
`"X"` under the outgoing language's id (1, captured by the callback's
closure at arming time): two saves for the same (problem, language) Attempt
record are in flight, the stale-overwrite race the spec's
cancel-before-immediate-save invariant exists to prevent. -/
theorem languageSwitch_leaves_debounce_armed :
    (handleLanguageChange env0 statePendingDebounce 2
        (FetchResult.ok (some "YSAVED")) (FetchResult.ok "BP")
        (FetchResult.ok "BP")).1.saveTimeout
      = some ⟨2000, "X", some prob0, some langPy⟩ ∧
    (handleLanguageChange env0 statePendingDebounce 2
        (FetchResult.ok (some "YSAVED")) (FetchResult.ok "BP")
        (FetchResult.ok "BP")).2.head?
      = some (Effect.attemptUpdate "two-sum" "X" (some 1)) ∧
    (fireTimer env0
        (handleLanguageChange env0 statePendingDebounce 2
          (FetchResult.ok (some "YSAVED")) (FetchResult.ok "BP")
          (FetchResult.ok "BP")).1 2000 true).2
      = [Effect.attemptUpdate "two-sum" "X" (some 1)] := by
  refine ⟨?_, ?_, ?_⟩ <;> decide

/-- C9 (counterexample): the response interceptor automatically retries a
persistence/fetch request that failed with HTTP 401 once a stored refresh
token yields a fresh access token — so the claim "no call is ever retried
automatically" is false at this concrete input. -/
theorem interceptor_retries_on_401 :
    responseInterceptor { status := some 401, retryFlag := false }
      (some "refresh-token") (FetchResult.ok "new-access")
      = InterceptorOutcome.retryOriginal "new-access" := rfl

/-- C9 (amended): a request is retried automatically exactly when it failed
with 401, was not itself already a retry, a non-empty refresh token is
stored, and the token refresh succeeds; and a request marked as a retry is
never retried again (at most one automatic retry per request). -/
theorem interceptor_retry_characterization (err : ApiErrorCtx)
    (rt : Option String) (rr : FetchResult String) :
    ((∃ a, responseInterceptor err rt rr = InterceptorOutcome.retryOriginal a)
      ↔ (err.status = some 401 ∧ err.retryFlag = false ∧
         (∃ t, rt = some t ∧ t ≠ "") ∧ (∃ a, rr = FetchResult.ok a))) ∧
    (∀ st a rt2 rr2,
      responseInterceptor { status := st, retryFlag := true } rt2 rr2
        ≠ InterceptorOutcome.retryOriginal a) := by
  refine ⟨⟨?_, ?_⟩, ?_⟩
  · rintro ⟨a, ha⟩
    by_cases h : err.status = some 401 ∧ err.retryFlag = false
    · rcases rt with _ | t
      · simp [responseInterceptor, h] at ha
      · by_cases ht : jsTruthy t
        · rcases rr with a2 | _
          · exact ⟨h.1, h.2, ⟨t, rfl, by simpa [jsTruthy] using ht⟩, a2, rfl⟩
          · simp [responseInterceptor, h, ht] at ha
        · simp [responseInterceptor, h, ht] at ha
    · simp [responseInterceptor, h] at ha
  · rintro ⟨h1, h2, ⟨t, rfl, ht⟩, a, rfl⟩
    exact ⟨a, by simp [responseInterceptor, h1, h2, jsTruthy, ht]⟩
  · intro st a rt2 rr2
    simp [responseInterceptor]

/-- C7 (counterexample): a run invocation whose fresh connection has not yet
opened, followed by a second run invocation, makes the session construct a
second WebSocket while the first is still connecting and never closed — two
live Connections exist simultaneously, refuting "at most one live Connection
per Session". -/
theorem secondEnsure_whileConnecting_leaksSocket :
    ((runClick env0 (runClick env0 baseState 0 true false true).1 10
        true false true).1.liveSockets).length = 2 := by decide

/-- C7 (amended): `initializeWebSocket` returns the stored Connection
exactly when it is `OPEN` (leaving the state untouched), and otherwise —
authenticated, problem loaded, well-formed URL — constructs, stores and
returns a fresh `CONNECTING` socket; the session's state references at most
one Connection, but the previous socket is not closed: the set of live
sockets grows, so two live transport connections can coexist. -/
theorem ensureConnection_amended (env : Env) (s : SessionState) (p : Problem)
    (hAuth : env.isAuthenticated = true) (hProb : s.problem = some p)
    (hUrl : wsUrlOk env) :
    (∀ c, s.wsConnection = some c → c.readyState = ReadyState.OPEN →
      initializeWebSocket env s = (some c, s, [])) ∧
    ((∀ c, s.wsConnection = some c → c.readyState ≠ ReadyState.OPEN) →
      initializeWebSocket env s =
        (some (freshConn env s),
         { s with
            wsConnection := some (freshConn env s),
            nextSocketId := s.nextSocketId + 1,
            liveSockets := s.liveSockets ++ [s.nextSocketId] },
         [Effect.wsCreate s.nextSocketId (mkWsTargetUrl env.wsUrl env.token)])) := by
  obtain ⟨hU1, hU2, hU3, hU4, hU5⟩ := hUrl
  constructor
  · intro c hc hopen
    simp [initializeWebSocket, hc, hopen]
  · intro hno
    rcases hws : s.wsConnection with _ | c
    · simp [initializeWebSocket, freshConn, hws, hAuth, hProb, hU1, hU2, hU3,
        hU4, hU5]
    · have hne := hno c hws
      simp [initializeWebSocket, freshConn, hws, hne, hAuth, hProb, hU1, hU2,
        hU3, hU4, hU5]

/-- Witness for the amended C7: with an `OPEN` stored connection the
existing Connection is reused untouched. -/
theorem ensureConnection_amended_witness :
    initializeWebSocket env0
        { baseState with
            wsConnection := some { id := 5, url := "u", readyState := ReadyState.OPEN },
            liveSockets := [5], nextSocketId := 6 }
      = (some { id := 5, url := "u", readyState := ReadyState.OPEN },
         { baseState with
            wsConnection := some { id := 5, url := "u", readyState := ReadyState.OPEN },
            liveSockets := [5], nextSocketId := 6 },
         []) :=
  (ensureConnection_amended env0 _ prob0 rfl rfl
    (by unfold wsUrlOk; decide)).1 _ rfl rfl

/-- C8: the unmount cleanup always clears the pending debounce timer, issues
at most one persistence call, issues one exactly when the content is
non-empty and initialized, the user authenticated, and the slug and problem
are loaded — and that single call carries the ref-held code. -/
theorem unmountCleanup_exact (env : Env) (s : SessionState) :
    (unmountCleanup env s).1.saveTimeout = none ∧
    (unmountCleanup env s).2.length ≤ 1 ∧
    ((unmountCleanup env s).2 ≠ [] ↔
      (env.isAuthenticated = true ∧ s.codeInitialized = true ∧
       s.currentCodeRef ≠ "" ∧ (∃ sl, env.slug = some sl ∧ sl ≠ "") ∧
       s.currentProblemRef.isSome = true)) ∧
    (∀ p, s.currentProblemRef = some p → ∀ sl, env.slug = some sl →
      env.isAuthenticated = true → s.codeInitialized = true →
      s.currentCodeRef ≠ "" → sl ≠ "" →
      (unmountCleanup env s).2 =
        [Effect.attemptUpdate sl s.currentCodeRef (jsLangIdOfProblem p)]) := by
  rcases hsl : env.slug with _ | sl <;> rcases hp : s.currentProblemRef with _ | p
  · simp [unmountCleanup, hsl, hp]
  · simp [unmountCleanup, hsl, hp]
  · simp [unmountCleanup, hsl, hp]
  · by_cases hc : env.isAuthenticated = true ∧ s.codeInitialized = true ∧
        jsTruthy s.currentCodeRef = true ∧ jsTruthy sl = true
    · obtain ⟨h1, h2, h3, h4⟩ := hc
      have h3n : s.currentCodeRef ≠ "" := by simpa [jsTruthy] using h3
      have h4n : sl ≠ "" := by simpa [jsTruthy] using h4
      refine ⟨?_, ?_, ?_, ?_⟩
      · simp only [unmountCleanup, hsl, hp]
        rw [if_pos ⟨h1, h2, h3, h4⟩]
      · simp only [unmountCleanup, hsl, hp]
        rw [if_pos ⟨h1, h2, h3, h4⟩]
        simp
      · simp only [unmountCleanup, hsl, hp]
        rw [if_pos ⟨h1, h2, h3, h4⟩]
        simp [h1, h2, h3n, h4n]
      · intro p2 hp2 sl2 hsl2 _ _ _ _
        injection hp2 with e1
        injection hsl2 with e2
        subst e1; subst e2
        simp only [unmountCleanup, hsl, hp]
        rw [if_pos ⟨h1, h2, h3, h4⟩]
    · refine ⟨?_, ?_, ?_, ?_⟩
      · simp only [unmountCleanup, hsl, hp]
        split <;> rfl
      · simp only [unmountCleanup, hsl, hp]
        rw [if_neg hc]
        simp
      · simp only [unmountCleanup, hsl, hp]
        rw [if_neg hc]
        simp only [ne_eq, not_true_eq_false, false_iff]
        rintro ⟨hb1, hb2, hb3, ⟨sl2, hsl2, hsl2n⟩, -⟩
        injection hsl2 with e2
        subst e2
        exact hc ⟨hb1, hb2, by simpa [jsTruthy] using hb3,
          by simpa [jsTruthy] using hsl2n⟩
      · intro p2 hp2 sl2 hsl2 ha hb hcode hslne
        injection hsl2 with e2
        subst e2
        exact absurd ⟨ha, hb, by simpa [jsTruthy] using hcode,
          by simpa [jsTruthy] using hslne⟩ hc

/-- Witness for C8 at a concrete session: the cleanup issues a persistence
call. -/
theorem unmountCleanup_exact_witness :
    (unmountCleanup env0 baseState).2 ≠ [] :=
  (unmountCleanup_exact env0 baseState).2.2.1.mpr
    ⟨rfl, rfl, by decide, ⟨"two-sum", rfl, by decide⟩, rfl⟩

/-- C10: the unmount-time persistence call carries the problem's locked
language id (`language?.id || undefined` — no language at all for a
multi-language problem) taken from the problem ref, never the currently
selected language (the trace is invariant under changing the selection);
every other save path (`saveAttempt`) instead carries the selected
language's id. -/
theorem unmountSave_uses_lockedLanguage (env : Env) (s : SessionState)
    (sl : String) (p : Problem)
    (hSlug : env.slug = some sl) (hsl : sl ≠ "")
    (hProb : s.currentProblemRef = some p)
    (hAuth : env.isAuthenticated = true) (hInit : s.codeInitialized = true)
    (hCode : s.currentCodeRef ≠ "") :
    (unmountCleanup env s).2 =
      [Effect.attemptUpdate sl s.currentCodeRef (jsLangIdOfProblem p)] ∧
    (∀ l, p.language = some l → l.id ≠ 0 → jsLangIdOfProblem p = some l.id) ∧
    (p.language = none → jsLangIdOfProblem p = none) ∧
    (∀ lang2, (unmountCleanup env { s with selectedLanguage := lang2 }).2 =
      (unmountCleanup env s).2) ∧
    (∀ now c silent ok lang, s.selectedLanguage = some lang →
      ∀ e ∈ (saveAttempt env s now c silent ok).2,
        e = Effect.attemptUpdate sl c (some lang.id)) := by
  refine ⟨?_, ?_, ?_, ?_, ?_⟩
  · simp [unmountCleanup, hSlug, hProb, hAuth, hInit, jsTruthy, hCode, hsl]
  · intro l hl hl0
    simp [jsLangIdOfProblem, hl, hl0]
  · intro hl
    simp [jsLangIdOfProblem, hl]
  · intro lang2
    simp [unmountCleanup, hSlug, hProb, hAuth, hInit, jsTruthy, hCode, hsl]
  · intro now c silent ok lang hlang e he
    rcases hpr : s.problem with _ | pr
    · simp [saveAttempt, saveAttemptWith, hpr] at he
    · simp [saveAttempt, saveAttemptWith, hpr, hSlug, hlang, hAuth, jsTruthy,
        hsl] at he
      simpa using he

/-- `initializeWebSocket` leaves the mode flags, output, timer and buffer
untouched, emits no send, and hands back an `OPEN` connection only when that
very connection was already stored. -/
theorem initializeWebSocket_spec (env : Env) (s : SessionState) :
    ((initializeWebSocket env s).2.1.output = s.output ∧
     (initializeWebSocket env s).2.1.executing = s.executing ∧
     (initializeWebSocket env s).2.1.submitting = s.submitting ∧
     (initializeWebSocket env s).2.1.saveTimeout = s.saveTimeout ∧
     (initializeWebSocket env s).2.1.code = s.code) ∧
    (∀ e ∈ (initializeWebSocket env s).2.2, isSendEffect e = false) ∧
    (∀ c, (initializeWebSocket env s).1 = some c →
      c.readyState = ReadyState.OPEN → s.wsConnection = some c) := by
  rcases hws : s.wsConnection with _ | c <;>
    simp only [initializeWebSocket, hws] <;>
    split_ifs <;>
    simp_all [isSendEffect]

/-- The dispatch phase of `handleRunCode` when no stored connection is open
and the fresh one does not open within the bounded wait: synthesized
connectivity error, `executing` cleared, nothing sent. -/
theorem dispatch_timeout_run (env : Env) (sB : SessionState) (lang : Language)
    (prob : Problem) (sendOk : Bool)
    (hNotOpen : ∀ c, sB.wsConnection = some c →
      c.readyState ≠ ReadyState.OPEN) :
    (dispatchRequest env sB lang prob "run"
        (fun st b => { st with executing := b }) false sendOk).1.output
      = some (connectionFailureResult lang.slug) ∧
    (dispatchRequest env sB lang prob "run"
        (fun st b => { st with executing := b }) false sendOk).1.executing
      = false ∧
    (dispatchRequest env sB lang prob "run"
        (fun st b => { st with executing := b }) false sendOk).1.submitting
      = sB.submitting ∧
    (∀ e ∈ (dispatchRequest env sB lang prob "run"
        (fun st b => { st with executing := b }) false sendOk).2,
      isSendEffect e = false) := by
  have hspec := initializeWebSocket_spec env
    { sB with output := none, submissionStatus := none, submissionId := none,
              executing := true }
  rcases hr : initializeWebSocket env
      { sB with output := none, submissionStatus := none, submissionId := none,
                executing := true } with ⟨wsOpt, s2, es2⟩
  rw [hr] at hspec
  obtain ⟨⟨hOut, hEx, hSub, hST, hCode⟩, hEs, hOpenSrc⟩ := hspec
  rcases wsOpt with _ | c
  · simp only [dispatchRequest, hr]
    simp_all
  · by_cases hO : c.readyState = ReadyState.OPEN
    · exact absurd hO (hNotOpen c (by simpa using hOpenSrc c rfl hO))
    · simp only [dispatchRequest, hr]
      simp_all

/-- The dispatch phase of `handleSubmitCode` under the same connection
timeout: synthesized connectivity error, `submitting` cleared, nothing
sent. -/
theorem dispatch_timeout_submit (env : Env) (sB : SessionState)
    (lang : Language) (prob : Problem) (sendOk : Bool)
    (hNotOpen : ∀ c, sB.wsConnection = some c →
      c.readyState ≠ ReadyState.OPEN) :
    (dispatchRequest env sB lang prob "submit"
        (fun st b => { st with submitting := b }) false sendOk).1.output
      = some (connectionFailureResult lang.slug) ∧
    (dispatchRequest env sB lang prob "submit"
        (fun st b => { st with submitting := b }) false sendOk).1.submitting
      = false ∧
    (dispatchRequest env sB lang prob "submit"
        (fun st b => { st with submitting := b }) false sendOk).1.executing
      = sB.executing ∧
    (∀ e ∈ (dispatchRequest env sB lang prob "submit"
        (fun st b => { st with submitting := b }) false sendOk).2,
      isSendEffect e = false) := by
  have hspec := initializeWebSocket_spec env
    { sB with output := none, submissionStatus := none, submissionId := none,
              submitting := true }
  rcases hr : initializeWebSocket env
      { sB with output := none, submissionStatus := none, submissionId := none,
                submitting := true } with ⟨wsOpt, s2, es2⟩
  rw [hr] at hspec
  obtain ⟨⟨hOut, hEx, hSub, hST, hCode⟩, hEs, hOpenSrc⟩ := hspec
  rcases wsOpt with _ | c
  · simp only [dispatchRequest, hr]
    simp_all
  · by_cases hO : c.readyState = ReadyState.OPEN
    · exact absurd hO (hNotOpen c (by simpa using hOpenSrc c rfl hO))
    · simp only [dispatchRequest, hr]
      simp_all

/-- `saveAttempt` touches only `savedAt` and `saving`, and emits only
attempt-endpoint writes (never a send). -/
theorem saveAttempt_preserves (env : Env) (s : SessionState) (now : Nat)
    (c : String) (silent ok : Bool) :
    ((saveAttempt env s now c silent ok).1.problem = s.problem ∧
     (saveAttempt env s now c silent ok).1.selectedLanguage
       = s.selectedLanguage ∧
     (saveAttempt env s now c silent ok).1.wsConnection = s.wsConnection ∧
     (saveAttempt env s now c silent ok).1.code = s.code ∧
     (saveAttempt env s now c silent ok).1.executing = s.executing ∧
     (saveAttempt env s now c silent ok).1.submitting = s.submitting ∧
     (saveAttempt env s now c silent ok).1.saveTimeout = s.saveTimeout ∧
     (saveAttempt env s now c silent ok).1.codeInitialized
       = s.codeInitialized) ∧
    (∀ e ∈ (saveAttempt env s now c silent ok).2, isSendEffect e = false) := by
  rcases hp : s.problem with _ | p <;>
    rcases hsl : env.slug with _ | sl <;>
      rcases hl : s.selectedLanguage with _ | lang <;>
        simp only [saveAttempt, saveAttemptWith, hp, hsl, hl] <;>
        first
          | (split_ifs <;> simp [isSendEffect, hp, hsl, hl])
          | simp [isSendEffect, hp, hsl, hl]

/-- `handleRunCode` under a connection that never opens: connectivity error
recorded, `executing` cleared, `submitting` untouched, nothing sent. -/
theorem handleRun_timeout (env : Env) (s : SessionState) (now : Nat)
    (lang : Language) (prob : Problem) (saveOk sendOk : Bool)
    (hLang : s.selectedLanguage = some lang) (hProb : s.problem = some prob)
    (hNotOpen : ∀ c, s.wsConnection = some c →
      c.readyState ≠ ReadyState.OPEN) :
    (handleRunCode env s now saveOk false sendOk).1.output
      = some (connectionFailureResult lang.slug) ∧
    (handleRunCode env s now saveOk false sendOk).1.executing = false ∧
    (handleRunCode env s now saveOk false sendOk).1.submitting
      = s.submitting ∧
    (∀ e ∈ (handleRunCode env s now saveOk false sendOk).2,
      isSendEffect e = false) := by
  obtain ⟨p0, ls0, sel0, c0, o0, e0, su0, sv0, sa0, ss0, si0, ws0, ic0, st0,
    ci0, cr0, pr0, lv0, ni0⟩ := s
  dsimp only at hLang hProb hNotOpen ⊢
  subst hLang
  subst hProb
  by_cases hAI : ((env.isAuthenticated = true) ∧ (ci0 = true))
  · have hpre := saveAttempt_preserves env
      ⟨some prob, ls0, some lang, c0, o0, e0, su0, sv0, sa0, ss0, si0, ws0,
        ic0, none, ci0, cr0, pr0, lv0, ni0⟩ now c0 true saveOk
    have hno : ∀ cc, (saveAttempt env
        ⟨some prob, ls0, some lang, c0, o0, e0, su0, sv0, sa0, ss0, si0, ws0,
          ic0, none, ci0, cr0, pr0, lv0, ni0⟩ now c0 true
          saveOk).1.wsConnection = some cc →
        cc.readyState ≠ ReadyState.OPEN := by
      intro cc hcc
      rw [hpre.1.2.2.1] at hcc
      exact hNotOpen cc hcc
    have hd := dispatch_timeout_run env (saveAttempt env
        ⟨some prob, ls0, some lang, c0, o0, e0, su0, sv0, sa0, ss0, si0, ws0,
          ic0, none, ci0, cr0, pr0, lv0, ni0⟩ now c0 true saveOk).1 lang prob
      sendOk hno
    simp only [handleRunCode, if_pos hAI]
    refine ⟨hd.1, hd.2.1, ?_, ?_⟩
    · rw [hd.2.2.1, hpre.1.2.2.2.2.2.1]
    · intro e he
      rcases List.mem_append.1 he with h | h
      · exact hpre.2 e h
      · exact hd.2.2.2 e h
  · have hd := dispatch_timeout_run env
      ⟨some prob, ls0, some lang, c0, o0, e0, su0, sv0, sa0, ss0, si0, ws0,
        ic0, none, ci0, cr0, pr0, lv0, ni0⟩ lang prob sendOk
      (fun cc hcc => hNotOpen cc hcc)
    simp only [handleRunCode, if_neg hAI]
    exact ⟨hd.1, hd.2.1, hd.2.2.1,
      fun e he => hd.2.2.2 e (by simpa using he)⟩

/-- `handleSubmitCode` under a connection that never opens (authenticated
caller): connectivity error recorded, `submitting` cleared, `executing`
untouched, nothing sent. -/
theorem handleSubmit_timeout (env : Env) (s : SessionState) (now : Nat)
    (lang : Language) (prob : Problem) (saveOk sendOk : Bool)
    (hLang : s.selectedLanguage = some lang) (hProb : s.problem = some prob)
    (hAuth : env.isAuthenticated = true)
    (hNotOpen : ∀ c, s.wsConnection = some c →
      c.readyState ≠ ReadyState.OPEN) :
    (handleSubmitCode env s now saveOk false sendOk).1.output
      = some (connectionFailureResult lang.slug) ∧
    (handleSubmitCode env s now saveOk false sendOk).1.submitting = false ∧
    (handleSubmitCode env s now saveOk false sendOk).1.executing
      = s.executing ∧
    (∀ e ∈ (handleSubmitCode env s now saveOk false sendOk).2,
      isSendEffect e = false) := by
  obtain ⟨p0, ls0, sel0, c0, o0, e0, su0, sv0, sa0, ss0, si0, ws0, ic0, st0,
    ci0, cr0, pr0, lv0, ni0⟩ := s
  dsimp only at hLang hProb hNotOpen ⊢
  subst hLang
  subst hProb
  by_cases hInit : ci0 = true
  · have hpre := saveAttempt_preserves env
      ⟨some prob, ls0, some lang, c0, o0, e0, su0, sv0, sa0, ss0, si0, ws0,
        ic0, none, ci0, cr0, pr0, lv0, ni0⟩ now c0 true saveOk
    have hno : ∀ cc, (saveAttempt env
        ⟨some prob, ls0, some lang, c0, o0, e0, su0, sv0, sa0, ss0, si0, ws0,
          ic0, none, ci0, cr0, pr0, lv0, ni0⟩ now c0 true
          saveOk).1.wsConnection = some cc →
        cc.readyState ≠ ReadyState.OPEN := by
      intro cc hcc
      rw [hpre.1.2.2.1] at hcc
      exact hNotOpen cc hcc
    have hd := dispatch_timeout_submit env (saveAttempt env
        ⟨some prob, ls0, some lang, c0, o0, e0, su0, sv0, sa0, ss0, si0, ws0,
          ic0, none, ci0, cr0, pr0, lv0, ni0⟩ now c0 true saveOk).1 lang prob
      sendOk hno
    simp only [handleSubmitCode, hAuth, not_true_eq_false, if_false,
      if_pos hInit]
    refine ⟨hd.1, hd.2.1, ?_, ?_⟩
    · rw [hd.2.2.1, hpre.1.2.2.2.2.1]
    · intro e he
      rcases List.mem_append.1 he with h | h
      · exact hpre.2 e h
      · exact hd.2.2.2 e h
  · have hd := dispatch_timeout_submit env
      ⟨some prob, ls0, some lang, c0, o0, e0, su0, sv0, sa0, ss0, si0, ws0,
        ic0, none, ci0, cr0, pr0, lv0, ni0⟩ lang prob sendOk
      (fun cc hcc => hNotOpen cc hcc)
    simp only [handleSubmitCode, hAuth, not_true_eq_false, if_false,
      if_neg hInit]
    exact ⟨hd.1, hd.2.1, hd.2.2.1,
      fun e he => hd.2.2.2 e (by simpa using he)⟩

/-- C6: if after a run or submit invocation from Idle the Connection does
not reach `OPEN` within the bounded wait, the handler stores the
synthesized connectivity-error result, returns the mode to Idle (both flags
cleared), and sends no Execution Request. -/
theorem connectionTimeout_failsLocally (env : Env) (s : SessionState)
    (now : Nat) (lang : Language) (prob : Problem) (saveOk sendOk : Bool)
    (hIdle1 : s.executing = false) (hIdle2 : s.submitting = false)
    (hLang : s.selectedLanguage = some lang) (hProb : s.problem = some prob)
    (hAuth : env.isAuthenticated = true)
    (hNotOpen : ∀ c, s.wsConnection = some c →
      c.readyState ≠ ReadyState.OPEN) :
    ((runClick env s now saveOk false sendOk).1.output
        = some (connectionFailureResult lang.slug) ∧
     (runClick env s now saveOk false sendOk).1.executing = false ∧
     (runClick env s now saveOk false sendOk).1.submitting = false ∧
     (∀ e ∈ (runClick env s now saveOk false sendOk).2,
       isSendEffect e = false)) ∧
    ((submitClick env s now saveOk false sendOk).1.output
        = some (connectionFailureResult lang.slug) ∧
     (submitClick env s now saveOk false sendOk).1.submitting = false ∧
     (submitClick env s now saveOk false sendOk).1.executing = false ∧
     (∀ e ∈ (submitClick env s now saveOk false sendOk).2,
       isSendEffect e = false)) := by
  have hr := handleRun_timeout env s now lang prob saveOk sendOk hLang hProb
    hNotOpen
  have hs := handleSubmit_timeout env s now lang prob saveOk sendOk hLang
    hProb hAuth hNotOpen
  have hguard1 : runClick env s now saveOk false sendOk
      = handleRunCode env s now saveOk false sendOk := by
    simp [runClick, hIdle1, hIdle2, hLang]
  have hguard2 : submitClick env s now saveOk false sendOk
      = handleSubmitCode env s now saveOk false sendOk := by
    simp [submitClick, hIdle1, hIdle2, hLang, hAuth]
  rw [hguard1, hguard2]
  exact ⟨⟨hr.1, hr.2.1, by rw [hr.2.2.1, hIdle2], hr.2.2.2⟩,
         ⟨hs.1, hs.2.1, by rw [hs.2.2.1, hIdle1], hs.2.2.2⟩⟩

/-- Witness for C6: from the base session (no connection, fresh socket never
opening) a run click yields the connectivity-error output. -/
theorem connectionTimeout_failsLocally_witness :
    (runClick env0 baseState 0 true false true).1.output
      = some (connectionFailureResult "python") :=
  (connectionTimeout_failsLocally env0 baseState 0 langPy prob0 true true
    rfl rfl rfl rfl rfl
    (fun c hc => by simp [baseState] at hc)).1.1

/-- C5: a run click from Idle (authenticated, initialized, with a ready
open connection) cancels the pending debounce timer, performs the immediate
silent save carrying exactly the invocation-time code, and only then sends
the Execution Request: the trace is exactly save-then-send, the request
carries the same code the save carried, and no debounce timer survives the
handler, so no stale debounced save can land afterwards. -/
theorem runCode_save_then_send (env : Env) (s : SessionState) (now : Nat)
    (lang : Language) (prob : Problem) (c : Conn) (sl : String)
    (saveOk opens : Bool)
    (hIdle1 : s.executing = false) (hIdle2 : s.submitting = false)
    (hLang : s.selectedLanguage = some lang) (hProb : s.problem = some prob)
    (hAuth : env.isAuthenticated = true) (hInit : s.codeInitialized = true)
    (hSlug : env.slug = some sl) (hsl : sl ≠ "")
    (hConn : s.wsConnection = some c)
    (hOpen : c.readyState = ReadyState.OPEN) :
    (runClick env s now saveOk opens true).2 =
      [Effect.attemptUpdate sl s.code (some lang.id),
       Effect.wsSend c.id lang.slug "*" s.code prob.slug "run"] ∧
    (runClick env s now saveOk opens true).1.saveTimeout = none ∧
    (runClick env s now saveOk opens true).1.executing = true := by
  obtain ⟨p0, ls0, sel0, c0, o0, e0, su0, sv0, sa0, ss0, si0, ws0, ic0, st0,
    ci0, cr0, pr0, lv0, ni0⟩ := s
  dsimp only at hIdle1 hIdle2 hLang hProb hInit hConn ⊢
  subst hIdle1
  subst hIdle2
  subst hLang
  subst hProb
  subst hInit
  subst hConn
  cases saveOk <;>
    simp [runClick, handleRunCode, saveAttempt, saveAttemptWith,
      dispatchRequest, initializeWebSocket, hSlug, hAuth, hOpen, jsTruthy,
      hsl]

/-- Witness for C5 at a concrete session with an open connection. -/
theorem runCode_save_then_send_witness :
    (runClick env0 stateOpenConn 7 true true true).2 =
      [Effect.attemptUpdate "two-sum" "print(1)" (some 1),
       Effect.wsSend 3 "python" "*" "print(1)" "two-sum" "run"] :=
  (runCode_save_then_send env0 stateOpenConn 7 langPy prob0 connO "two-sum"
    true true rfl rfl rfl rfl rfl rfl rfl (by decide) rfl rfl).1

/-- C3: switching language while authenticated with a (trim-)non-empty
buffer first issues and completes the save of the outgoing code under the
outgoing language's id — it is the first effect of the trace — then updates
the Session's selection to the new language, and only then resolves the new
buffer (the attempt fetch is the next effect; the final buffer is the saved
attempt if non-empty, else fetched boilerplate, else the language's static
default). -/
theorem languageSwitch_saves_outgoing_first (env : Env) (s : SessionState)
    (lid : Nat) (newLang oldLang : Language) (sl : String)
    (aRes : FetchResult (Option String)) (b1 b2 : FetchResult String)
    (hAuth : env.isAuthenticated = true)
    (hFind : s.languages.find? (fun l => l.id == lid) = some newLang)
    (hSlug : env.slug = some sl) (hsl : sl ≠ "")
    (hSel : s.selectedLanguage = some oldLang)
    (hCode : strTrim s.code ≠ "") :
    (handleLanguageChange env s lid aRes b1 b2).2.head?
      = some (Effect.attemptUpdate sl s.code (some oldLang.id)) ∧
    (handleLanguageChange env s lid aRes b1 b2).1.selectedLanguage
      = some newLang ∧
    (handleLanguageChange env s lid aRes b1 b2).2.tail.head?
      = some (Effect.attemptGet sl newLang.id) ∧
    (∀ cNew, aRes = FetchResult.ok (some cNew) → strTrim cNew ≠ "" →
      (handleLanguageChange env s lid aRes b1 b2).1.code = cNew) ∧
    (∀ cNew b, aRes = FetchResult.ok (some cNew) → strTrim cNew = "" →
      b1 = FetchResult.ok b →
      (handleLanguageChange env s lid aRes b1 b2).1.code = b) ∧
    (∀ b, aRes = FetchResult.err → b2 = FetchResult.ok b →
      (handleLanguageChange env s lid aRes b1 b2).1.code = b) ∧
    (aRes = FetchResult.err → b2 = FetchResult.err →
      (handleLanguageChange env s lid aRes b1 b2).1.code
        = newLang.boilerplate.getD "") := by
  have hTr : jsTruthy sl = true := by simp [jsTruthy, hsl]
  have hTc : jsTruthy (strTrim s.code) = true := by simp [jsTruthy, hCode]
  rcases aRes with cN | _
  · rcases cN with _ | cStr
    · rcases b1 with bT | _ <;> rcases b2 with bC | _ <;>
        simp [handleLanguageChange, hFind, hSlug, hSel, hAuth, hTr, hTc,
          jsTruthyOpt, hsl, hCode]
    · by_cases hcs : strTrim cStr = ""
      · rcases b1 with bT | _ <;> rcases b2 with bC | _ <;>
          simp [handleLanguageChange, hFind, hSlug, hSel, hAuth, hTr, hTc,
            jsTruthyOpt, jsTruthy, hcs, hsl, hCode]
      · have hcs2 : cStr ≠ "" := by
          intro h
          rw [h] at hcs
          exact hcs (by decide)
        rcases b1 with bT | _ <;> rcases b2 with bC | _ <;>
          simp [handleLanguageChange, hFind, hSlug, hSel, hAuth, hTr, hTc,
            jsTruthyOpt, jsTruthy, hcs, hcs2, hsl, hCode]
  · rcases b1 with bT | _ <;> rcases b2 with bC | _ <;>
      simp [handleLanguageChange, hFind, hSlug, hSel, hAuth, hTr, hTc,
        jsTruthyOpt, hsl, hCode]

/-- Witness for C3: switching the base session (buffer `"print(1)"`) from
Python to Node saves the outgoing Python code first. -/
theorem languageSwitch_saves_outgoing_first_witness :
    (handleLanguageChange env0 baseState 2 (FetchResult.ok (some "Y"))
        (FetchResult.ok "B") (FetchResult.ok "B")).2.head?
      = some (Effect.attemptUpdate "two-sum" "print(1)" (some 1)) :=
  (languageSwitch_saves_outgoing_first env0 baseState 2 langJs langPy
    "two-sum" (FetchResult.ok (some "Y")) (FetchResult.ok "B")
    (FetchResult.ok "B") rfl (by decide) rfl (by decide) rfl (by decide)).1

/-- Coalescing invariant: starting from a session whose debounce timer was
armed by the edit `d`, a chained edit script fires no save at all and leaves
the timer armed for the last edit. -/
theorem runEdits_coalesce (env : Env) (saveOk : Bool) :
    ∀ (edits : List (Nat × String)) (s : SessionState) (d : Nat × String),
      env.isAuthenticated = true → s.codeInitialized = true →
      s.code = d.2 → s.currentCodeRef = d.2 →
      s.saveTimeout = some
        ⟨d.1 + 2000, d.2, s.problem, s.selectedLanguage⟩ →
      chainOk (d :: edits) →
      runEdits env saveOk s edits =
        ({ s with code := (lastEdit d edits).2,
                  currentCodeRef := (lastEdit d edits).2,
                  saveTimeout := some ⟨(lastEdit d edits).1 + 2000,
                    (lastEdit d edits).2, s.problem,
                    s.selectedLanguage⟩ }, []) := by
  intro edits
  induction edits with
  | nil =>
    intro s d hA hI hc hr ht _
    obtain ⟨t1, c1⟩ := d
    obtain ⟨p0, ls0, sel0, c0, o0, e0, su0, sv0, sa0, ss0, si0, ws0, ic0, st0,
      ci0, cr0, pr0, lv0, ni0⟩ := s
    dsimp only at hc hr ht
    subst hc
    subst hr
    subst ht
    simp [runEdits, lastEdit]
  | cons e rest ih =>
    intro s d hA hI hc hr ht hch
    obtain ⟨t1, c1⟩ := d
    obtain ⟨t2, c2⟩ := e
    simp only [chainOk] at hch
    obtain ⟨hle, hlt, hch2⟩ := hch
    have hdue : timerDue s t2 = false := by
      simp [timerDue, ht]
      omega
    have hstep : stepEdit env saveOk s (t2, c2) =
        ({ s with code := c2, currentCodeRef := c2,
                  saveTimeout := some
                    ⟨t2 + 2000, c2, s.problem, s.selectedLanguage⟩ }, []) := by
      simp [stepEdit, hdue, handleCodeChange, hA, hI]
    have hihap := ih { s with code := c2, currentCodeRef := c2,
                              saveTimeout := some ⟨t2 + 2000, c2, s.problem,
                                s.selectedLanguage⟩ }
      (t2, c2) hA (by simpa using hI) rfl rfl rfl hch2
    simp [runEdits, hstep, hihap, lastEdit]

/-- C4: for every non-empty sequence of `onCodeChanged` calls in which each
call lands strictly within the debounce delay of its predecessor, with the
Session initialized and the user authenticated (and a problem, slug and
language present so a save can address its endpoint), exactly one save call
is issued for the whole sequence once time passes the last deadline — and it
carries the code of the last call; no timer remains afterwards. -/
theorem debounce_coalesces (env : Env) (s : SessionState) (t1 : Nat)
    (c1 : String) (rest : List (Nat × String)) (flushTime : Nat)
    (sl : String) (lang : Language) (prob : Problem) (saveOk : Bool)
    (hAuth : env.isAuthenticated = true) (hInit : s.codeInitialized = true)
    (hProb : s.problem = some prob) (hSlug : env.slug = some sl)
    (hsl : sl ≠ "") (hLang : s.selectedLanguage = some lang)
    (hNoPending : s.saveTimeout = none)
    (hChain : chainOk ((t1, c1) :: rest))
    (hFlush : (lastEdit (t1, c1) rest).1 + 2000 ≤ flushTime) :
    (runEditsThenFlush env saveOk s ((t1, c1) :: rest) flushTime).2 =
      [Effect.attemptUpdate sl (lastEdit (t1, c1) rest).2 (some lang.id)] ∧
    (runEditsThenFlush env saveOk s
        ((t1, c1) :: rest) flushTime).1.saveTimeout = none := by
  have hdue0 : timerDue s t1 = false := by simp [timerDue, hNoPending]
  have hstep : stepEdit env saveOk s (t1, c1) =
      ({ s with code := c1, currentCodeRef := c1,
                saveTimeout := some
                  ⟨t1 + 2000, c1, s.problem, s.selectedLanguage⟩ }, []) := by
    simp [stepEdit, hdue0, handleCodeChange, hAuth, hInit]
  have hrun := runEdits_coalesce env saveOk rest
    { s with code := c1, currentCodeRef := c1,
             saveTimeout := some
               ⟨t1 + 2000, c1, s.problem, s.selectedLanguage⟩ }
    (t1, c1) hAuth (by simpa using hInit) rfl rfl rfl hChain
  have hall : runEdits env saveOk s ((t1, c1) :: rest) =
      ({ s with code := (lastEdit (t1, c1) rest).2,
                currentCodeRef := (lastEdit (t1, c1) rest).2,
                saveTimeout := some ⟨(lastEdit (t1, c1) rest).1 + 2000,
                  (lastEdit (t1, c1) rest).2, s.problem,
                  s.selectedLanguage⟩ }, []) := by
    simp only [runEdits, hstep, hrun]
    simp
  cases saveOk <;>
    simp [runEditsThenFlush, hall, timerDue, hFlush, fireTimer,
      saveAttemptWith, hProb, hSlug, hLang, hAuth, jsTruthy, hsl]

/-- Witness for C4: three chained edits produce exactly one save, carrying
the last value. -/
theorem debounce_coalesces_witness :
    (runEditsThenFlush env0 true baseState
        [(0, "a"), (1000, "ab"), (2500, "abc")] 4500).2
      = [Effect.attemptUpdate "two-sum" "abc" (some 1)] :=
  (debounce_coalesces env0 baseState 0 "a" [(1000, "ab"), (2500, "abc")] 4500
    "two-sum" langPy prob0 true rfl rfl rfl rfl (by decide) rfl rfl
    (by simp [chainOk]) (by simp [lastEdit])).1

/-- Witness for C10: on a locked-language problem the unmount call carries
the locked language's id. -/
theorem unmountSave_uses_lockedLanguage_witness :
    (unmountCleanup env0
        { baseState with currentProblemRef := some probLocked }).2
      = [Effect.attemptUpdate "two-sum" "print(1)" (some 1)] := by
  have h := (unmountSave_uses_lockedLanguage env0
    { baseState with currentProblemRef := some probLocked } "two-sum"
    probLocked rfl (by decide) rfl rfl rfl (by decide)).1
  simpa [jsLangIdOfProblem, probLocked, langPy, baseState] using h

end Coddie
